import Mathlib

/-!
Verification development for the Defold 2D particle engine and the
tile-grid resource loader.

The particle implementation itself is exercised by the repository through
`src/engine/particle/src/test/test_particle.cpp`; the runtime model below is
built from the specification (spec.md sections 3 to 4.11) and anchored on the
concrete behaviours the repository tests assert.  The tile-grid loader is
embedded directly from
`src/engine/gamesys/src/gamesys/resources/res_tilegrid.cpp`.

Real arithmetic is modelled with the exact rationals; every quantity the
claims touch (dt values, rates, spline knots, texture coordinates) is a dyadic
rational, so the exact model agrees with the float computations of the tests.
-/

namespace dmParticle

/-- Modelled from the spec: emitter states of the emitter state machine
(spec.md section 4.5); the implementation `particle.cpp` is not part of the
source tree, only its tests are. -/
inductive EmitterState where
  | Sleeping
  | Prespawn
  | Spawning
  | Postspawn
deriving DecidableEq, Repr

/-- Modelled from the spec: play mode of an emitter prototype (spec.md
section 3). -/
inductive PlayMode where
  | Once
  | Loop
deriving DecidableEq, Repr

/-- Modelled from the spec: the particle record (spec.md section 3).  Only the
fields the claims observe are carried: remaining life and maximum life. -/
structure Particle where
  timeLeft : ℚ
  maxLife : ℚ
deriving DecidableEq, Repr

/-- Modelled from the spec: emitter prototype (spec.md section 3) restricted
to constant properties, which is what every test scenario of the claims
uses. -/
structure EmitterPrototype where
  rate : ℚ
  duration : ℚ
  startDelay : ℚ
  playMode : PlayMode
  maxParticleCount : ℕ
  particleLife : ℚ
  hasTileSource : Bool
deriving DecidableEq, Repr

/-- Modelled from the spec: emitter runtime record (spec.md section 3):
state, timer, fractional spawn accumulator, seed and the particle pool. -/
structure Emitter where
  state : EmitterState
  timer : ℚ
  spawnAccumulator : ℚ
  seed : ℕ
  particles : List Particle
deriving DecidableEq, Repr

/-- Modelled from the spec: a freshly created emitter is Sleeping with zero
timer and no particles (spec.md section 3, invariant 3). -/
def initialEmitter (seed : ℕ) : Emitter :=
  { state := .Sleeping, timer := 0, spawnAccumulator := 0, seed := seed, particles := [] }

/-- Modelled from the spec: Start moves a Sleeping emitter to Prespawn
(spec.md section 4.5). -/
def StartEmitter (e : Emitter) : Emitter :=
  match e.state with
  | .Sleeping => { e with state := .Prespawn }
  | _ => e

/-- Modelled from the spec: Stop moves an active emitter to Postspawn
(spec.md section 4.5). -/
def StopEmitter (e : Emitter) : Emitter :=
  match e.state with
  | .Sleeping => e
  | _ => { e with state := .Postspawn }

/-- Modelled from the spec: the spawner's contribution to one tick while the
emitter is Spawning (spec.md section 4.6): the accumulator gains `rate * dt`,
`n = floor(accumulator)` is removed from the accumulator, and spawning is
clamped to the free pool capacity `max_particle_count - live_count`.  When
the emitter is not Spawning nothing is spawned and the accumulator is
unchanged. -/
def spawnStep (proto : EmitterPrototype) (e : Emitter) (dt : ℚ) :
    Bool → List Particle × ℚ
  | true =>
    let acc := e.spawnAccumulator + proto.rate * dt
    let n0 := (Int.floor acc).toNat
    let n := min n0 (proto.maxParticleCount - e.particles.length)
    (List.replicate n { timeLeft := proto.particleLife, maxLife := proto.particleLife },
      acc - n0)
  | false => ([], e.spawnAccumulator)

/-- Modelled from the spec: one simulation tick of a single emitter, missing
with `particle.cpp`.  It composes the emitter state machine (spec.md
section 4.5), the rate-accumulator spawner `spawnStep` with its clamp to the
free pool capacity (section 4.6) and the simulator's ageing and expiry
removal (section 4.7).  A particle whose remaining life reaches exactly zero
survives the tick (test `ParticleTest.ParticleLife` observes `time_left = 0`
on a live particle); strictly negative remaining life is removed within the
tick. -/
def Update (proto : EmitterPrototype) (e : Emitter) (dt : ℚ) : Emitter :=
  match e.state with
  | .Sleeping => e
  | _ =>
    let st1 : EmitterState :=
      if e.state = .Prespawn ∧ proto.startDelay ≤ e.timer then .Spawning else e.state
    let sp := spawnStep proto e dt (st1 == .Spawning)
    let particles1 := e.particles ++ sp.1
    let timer1 := e.timer + dt
    let stepEnd : EmitterState × ℚ :=
      if st1 = .Spawning ∧ proto.startDelay + proto.duration ≤ timer1 then
        match proto.playMode with
        | .Once => (.Postspawn, timer1)
        | .Loop => (.Spawning, timer1 - proto.duration)
      else (st1, timer1)
    let particles2 :=
      (particles1.map (fun p => { p with timeLeft := p.timeLeft - dt })).filter
        (fun p => decide (0 ≤ p.timeLeft))
    let st3 :=
      if stepEnd.1 = .Postspawn ∧ particles2.length = 0 then .Sleeping else stepEnd.1
    { state := st3, timer := stepEnd.2, spawnAccumulator := sp.2,
      seed := e.seed, particles := particles2 }

/-- Modelled from the spec: updating over a sequence of time steps. -/
def UpdateRun (proto : EmitterPrototype) (e : Emitter) (dts : List ℚ) : Emitter :=
  dts.foldl (fun acc dt => Update proto acc dt) e

/-- Modelled from the spec: an instance sleeps when all its emitters sleep
(spec.md section 3: instance state). -/
def IsSleeping (emitters : List Emitter) : Bool :=
  emitters.all (fun e => e.state = EmitterState.Sleeping)

/-- Prototype of the `Once` scenario: `rate=1, duration=1, life=1, max=10`,
play mode once, no delay (spec.md section 8 scenario 1,
test `ParticleTest.Once`). -/
def onceProto : EmitterPrototype :=
  { rate := 1, duration := 1, startDelay := 0, playMode := .Once,
    maxParticleCount := 10, particleLife := 1, hasTileSource := false }

/-- Prototype of the `RateMulti` scenario: `rate=10, dt=1` produces ten
particles in one tick (spec.md section 4.6, test `ParticleTest.RateMulti`). -/
def rateMultiProto : EmitterPrototype :=
  { rate := 10, duration := 1, startDelay := 0, playMode := .Once,
    maxParticleCount := 64, particleLife := 10, hasTileSource := false }

/-- Prototype of the `RateSubDT` scenario: `rate=1` updated twice with
`dt=1/2` (spec.md section 8 scenario 3, test `ParticleTest.RateSubDT`). -/
def rateSubDTProto : EmitterPrototype :=
  { rate := 1, duration := 1, startDelay := 0, playMode := .Once,
    maxParticleCount := 64, particleLife := 1, hasTileSource := false }

/-- Prototype of the `RateTotal` scenario: `rate=5/2` over four ticks of
`dt=1` (spec.md section 4.6, test `ParticleTest.RateTotal`). -/
def rateTotalProto : EmitterPrototype :=
  { rate := 5/2, duration := 4, startDelay := 0, playMode := .Once,
    maxParticleCount := 64, particleLife := 10, hasTileSource := false }

/-- Prototype of the `MaxCount` scenario: `rate=10, max=5, life=10`
(spec.md section 8 scenario 4, test `ParticleTest.MaxCount`). -/
def maxCountProto : EmitterPrototype :=
  { rate := 10, duration := 4, startDelay := 0, playMode := .Once,
    maxParticleCount := 5, particleLife := 10, hasTileSource := false }

/-- Modelled from the spec: a spline key point `(t, value, tangent_x,
tangent_y)` (spec.md section 3). -/
structure SplineKey where
  t : ℚ
  y : ℚ
  tx : ℚ
  ty : ℚ
deriving DecidableEq, Repr

/-- Modelled from the spec: the cubic Hermite basis combination
`h00 y0 + h10 m0 + h01 y1 + h11 m1` (spec.md section 4.1). -/
def hermite (y0 y1 m0 m1 u : ℚ) : ℚ :=
  (2*u^3 - 3*u^2 + 1) * y0 + (u^3 - 2*u^2 + u) * m0
    + (-2*u^3 + 3*u^2) * y1 + (u^3 - u^2) * m1

/-- Modelled from the spec: evaluation of the Hermite curve on the segment
`[k0, k1]`, with tangents expressed per unit x and scaled by the segment
width (spec.md section 4.1). -/
def hermiteSegment (k0 k1 : SplineKey) (t : ℚ) : ℚ :=
  let d := k1.t - k0.t
  let u := (t - k0.t) / d
  hermite k0.y k1.y (k0.ty / k0.tx * d) (k1.ty / k1.tx * d) u

/-- Modelled from the spec: locate the segment containing `t` by walking the
ordered key list and evaluate the Hermite curve there; the last segment
absorbs the tail of the range (spec.md section 4.1); `particle.cpp` carrying
the evaluator is not part of the source tree. -/
def evalSegments : List SplineKey → ℚ → ℚ
  | [k0, k1], t => hermiteSegment k0 k1 t
  | k0 :: k1 :: k2 :: rest, t =>
    if t ≤ k1.t then hermiteSegment k0 k1 t else evalSegments (k1 :: k2 :: rest) t
  | _, _ => 0

/-- Modelled from the spec: spline property evaluation clamps `t` to `[0,1]`
before segment lookup (spec.md section 4.1). -/
def EvaluateSpline (keys : List SplineKey) (t : ℚ) : ℚ :=
  evalSegments keys (max 0 (min 1 t))

/-- The spline knots of the `EvaluateEmitterProperty` and
`EvaluateParticleProperty` scenarios (spec.md section 8 scenario 5). -/
def splineKnots : List SplineKey :=
  [ { t := 0,   y := 0, tx := 1, ty := 0 },
    { t := 1/4, y := 0, tx := 1, ty := 1 },
    { t := 1/2, y := 1, tx := 1, ty := 0 },
    { t := 3/4, y := 0, tx := 1, ty := -1 },
    { t := 1,   y := 0, tx := 1, ty := 0 } ]

/-- Modelled from the spec: flipbook playback modes (spec.md section 4.9). -/
inductive AnimPlayback where
  | None
  | OnceForward
  | OnceBackward
  | LoopForward
  | LoopBackward
  | PingPong
deriving DecidableEq, Repr

/-- Modelled from the spec: the animator's tile index as a function of the
particle's normalized age `tp` (spec.md section 4.9, table of playback
modes); `particle.cpp` carrying the animator is not part of the source tree.
`n = end_tile - start_tile + 1`; loop modes step at `tp * fps * life`; the
ping-pong mode is a triangle wave of period `2n - 2` over the tiles. -/
def AnimTile (pb : AnimPlayback) (startTile endTile : ℕ) (fps life tp : ℚ) : ℕ :=
  let n := endTile - startTile + 1
  match pb with
  | .None => startTile
  | .OnceForward => min (startTile + (Int.floor (tp * n)).toNat) endTile
  | .OnceBackward => max (endTile - (Int.floor (tp * n)).toNat) startTile
  | .LoopForward => startTile + (Int.floor (tp * fps * life)).toNat % n
  | .LoopBackward => endTile - (Int.floor (tp * fps * life)).toNat % n
  | .PingPong =>
    let j := (Int.floor (tp * fps * life)).toNat % (2 * n - 2)
    if j < n then startTile + j else endTile - (j - (n - 1))

/-- Modelled from the spec: the normalized age the animator samples at tick
`k` (0-based) for a particle spawned at the first tick: the animator reads
`t_p = 1 - time_left / max_life` before the tick's ageing, so `k` steps of
`dt` have elapsed (spec.md sections 4.7 and 4.9, anchored on
test `ParticleTest.Animation`). -/
def animAge (k : ℕ) (dt life : ℚ) : ℚ := (k * dt) / life

/-- Modelled from the spec: a vertex is 24 bytes — three f32, two u16 texture
coordinates and four u8 colour channels (spec.md section 6). -/
def sizeofVertex : ℕ := 24

/-- Modelled from the spec: `vertex_buffer_size(n) = 6 * n * sizeof(Vertex)`
(spec.md section 6, test `ParticleTest.VertexBufferSize`). -/
def GetVertexBufferSize (particleCount : ℕ) : ℕ :=
  6 * sizeofVertex * particleCount

/-- Modelled from the spec: the renderer writes six vertices per live visible
particle, truncating at the last whole particle that fits the caller's
capacity, and reports the written byte count (spec.md sections 4.10 and 3
invariant 6). -/
def WriteVertexBuffer (liveVisible capacity : ℕ) : ℕ :=
  GetVertexBufferSize (min liveVisible (capacity / (6 * sizeofVertex)))

/-- Quantization of a texture coordinate in `[0,1]` to a 16-bit value, as the
test's reference computation `uint16_t u0 = tc[0] * 65535.0f` truncates
(`VerifyVertexTexCoords`, test_particle.cpp lines 51-71; spec.md
section 4.10 step 3). -/
def quantU16 (q : ℚ) : ℕ := (Int.floor (q * 65535)).toNat

/-- Texture coordinate lookup `tex_coords[i]`, 0 outside the array. -/
def texCoordAt (texCoords : List ℚ) (i : ℕ) : ℚ := texCoords.getD i 0

/-- Modelled from the spec: the six vertices of a particle quad in "N" order
carry the quantized `(u0,v0,u1,v1)` of `tex_coords[tile]`: the order asserted
by `VerifyVertexTexCoords` is `(u0,v1) (u0,v0) (u1,v1) (u1,v1) (u0,v0)
(u1,v0)` (test_particle.cpp lines 51-71; spec.md section 4.10). -/
def QuadTexCoords (texCoords : List ℚ) (tile : ℕ) : List (ℕ × ℕ) :=
  let u0 := quantU16 (texCoordAt texCoords (tile * 4))
  let v0 := quantU16 (texCoordAt texCoords (tile * 4 + 1))
  let u1 := quantU16 (texCoordAt texCoords (tile * 4 + 2))
  let v1 := quantU16 (texCoordAt texCoords (tile * 4 + 3))
  [(u0, v1), (u0, v0), (u1, v1), (u1, v1), (u0, v0), (u1, v0)]

/-- The 2x4-tile texture coordinate table `g_TexCoords` of the `Animation`
test (test_particle.cpp lines 769-780). -/
def gTexCoords : List ℚ :=
  [ 0, 0, 1/4, 1/2,
    1/4, 0, 1/2, 1/2,
    1/2, 0, 3/4, 1/2,
    3/4, 0, 1, 1/2,
    0, 1/2, 1/4, 1,
    1/4, 1/2, 1/2, 1,
    1/2, 1/2, 3/4, 1,
    3/4, 1/2, 1, 1 ]

/-- The default unit texture coordinates `g_UnitTexCoords` used when an
emitter has no tile (test_particle.cpp lines 222-225). -/
def unitTexCoords : List ℚ := [0, 0, 1, 1]

/-- Modelled from the spec: render emits six vertices per live particle of an
emitter (spec.md section 4.10 step 2); the repository test
`ParticleTest.IncompleteParticleFX` (test_particle.cpp lines 276-284) fixes
that this also holds for emitters without a tile source or with a failing
animation fetch. -/
def RenderVertexCount (e : Emitter) : ℕ := 6 * e.particles.length

/-- Modelled from the spec: the texture handle passed to the render callback;
the repository test `ParticleTest.IncompleteParticleFX` asserts it is null
when the emitter has no tile source or the animation fetch fails. -/
def RenderTexture (proto : EmitterPrototype) (fetchOk : Bool) (handle : ℕ) : Option ℕ :=
  if proto.hasTileSource && fetchOk then some handle else none

/-- Modelled from the spec: the texture coordinate table the renderer reads
for an emitter; with no tile source or a failed fetch it falls back to the
unit coordinates (test `ParticleTest.IncompleteParticleFX`, which verifies
the emitted quad against `g_UnitTexCoords` at tile 0). -/
def RenderTexCoords (proto : EmitterPrototype) (fetchOk : Bool) (fetched : List ℚ) : List ℚ :=
  if proto.hasTileSource && fetchOk then fetched else unitTexCoords

/-- Prototype of the `IncompleteParticleFX` scenario restricted to what the
model carries: an emitter without tile source that spawns one particle in the
test's `dt = 1/60` tick (test_particle.cpp lines 230-298). -/
def noTileProto : EmitterPrototype :=
  { rate := 60, duration := 1, startDelay := 0, playMode := .Once,
    maxParticleCount := 64, particleLife := 1, hasTileSource := false }

/-- Modelled from the spec: `reload_instance(handle, replay=true)` rebuilds
the emitter runtime array against the (possibly new) prototype list: an
emitter present before and after reload keeps its `timer`, its `seed` and its
live particles, the pool resized to the new `max_particle_count` and
truncated from the tail when smaller; an emitter new in the reloaded
prototype is replayed from a fresh state over the instance's elapsed play
time, giving it its own particles (spec.md section 4.11, anchored on
test `ParticleTest.ReloadInstance`); `particle.cpp` carrying the reload path
is not part of the source tree. -/
def ReloadInstance : List Emitter → List EmitterPrototype → List ℚ → List Emitter
  | _, [], _ => []
  | [], p :: ps, playedDts =>
    UpdateRun p (StartEmitter (initialEmitter 0)) playedDts
      :: ReloadInstance [] ps playedDts
  | e :: es, p :: ps, playedDts =>
    { e with particles := e.particles.take p.maxParticleCount }
      :: ReloadInstance es ps playedDts

/-- Prototype of the emitters in the `ReloadInstance` scenario: one particle
spawned within the test's `dt = 1/60` first tick. -/
def reloadProto : EmitterPrototype :=
  { rate := 60, duration := 1, startDelay := 0, playMode := .Once,
    maxParticleCount := 1, particleLife := 1, hasTileSource := false }

/-- The `IncompleteParticleFX` variant with a tile source set but a failing
animation-fetch callback (test_particle.cpp lines 264-268). -/
def failFetchProto : EmitterPrototype :=
  { noTileProto with hasTileSource := true }

end dmParticle

namespace dmGameSystem

/-- A tile cell of the tile-grid message, with signed 32-bit grid
coordinates (`dmGameSystemDDF::TileCell`). -/
structure TileCell where
  x : ℤ
  y : ℤ
deriving DecidableEq, Repr

/-- A layer of the tile-grid message (`dmGameSystemDDF::TileLayer`). -/
structure TileLayer where
  cell : List TileCell
deriving DecidableEq, Repr

/-- The deserialized tile-grid message (`dmGameSystemDDF::TileGrid`);
`tileSet` abstracts the resource path `m_TileSet`. -/
structure TileGridDDF where
  tileSet : ℕ
  layers : List TileLayer
deriving DecidableEq, Repr

/-- The deserialized tile set (`dmGameSystemDDF::TileSet`), restricted to the
fields `AcquireResources` reads. -/
structure TileSetDDF where
  tileWidth : ℕ
  tileHeight : ℕ
deriving DecidableEq, Repr

/-- The resolved tile set resource (`dmGameSystem::TileSetResource`): its
message and its hull set handle, null modelled as `none`. -/
structure TileSetResource where
  tileSet : TileSetDDF
  hullSet : Option ℕ
deriving DecidableEq, Repr

/-- A grid shape as created by `dmPhysics::NewGridShape2D`, recording the
arguments the loader passes. -/
structure GridShape where
  hullSet : ℕ
  offsetX : ℚ
  offsetY : ℚ
  cellWidth : ℕ
  cellHeight : ℕ
  rowCount : ℤ
  columnCount : ℤ
deriving DecidableEq, Repr

/-- The tile-grid resource record (`dmGameSystem::TileGridResource`). -/
structure TileGridResource where
  tileGrid : Option TileGridDDF
  tileSet : Option TileSetResource
  gridShapes : List GridShape
  columnCount : ℤ
  rowCount : ℤ
  minCellX : ℤ
  minCellY : ℤ
deriving DecidableEq, Repr

/-- Results of `dmResource` operations as `AcquireResources` distinguishes
them. -/
inductive ResourceResult where
  | RESULT_OK
  | RESULT_FORMAT_ERROR
  | RESULT_RESOURCE_ERROR
deriving DecidableEq, Repr

/-- The `INT32_MAX` initial value of the boundary scan. -/
def int32Max : ℤ := 2147483647

/-- The `INT32_MIN` initial value of the boundary scan. -/
def int32Min : ℤ := -2147483648

/-- The boundary update of `AcquireResources` for one cell: running
`(min_x, min_y, max_x, max_y)` (res_tilegrid.cpp lines 49-53). -/
def scanCell (a : ℤ × ℤ × ℤ × ℤ) (c : TileCell) : ℤ × ℤ × ℤ × ℤ :=
  (min a.1 c.x, min a.2.1 c.y, max a.2.2.1 (c.x + 1), max a.2.2.2 (c.y + 1))

/-- The boundary fold of `AcquireResources` over one layer
(res_tilegrid.cpp lines 43-55). -/
def scanLayer (acc : ℤ × ℤ × ℤ × ℤ) (layer : TileLayer) : ℤ × ℤ × ℤ × ℤ :=
  layer.cell.foldl scanCell acc

/-- All cells of the message in scan order: layer by layer. -/
def allCells (ddf : TileGridDDF) : List TileCell :=
  (ddf.layers.map TileLayer.cell).flatten

/-- The least value of `f` over the nonempty cell list `c0 :: cs`. -/
def minCellsBy (f : TileCell → ℤ) (c0 : TileCell) (cs : List TileCell) : ℤ :=
  cs.foldl (fun m c => min m (f c)) (f c0)

/-- The greatest value of `f` over the nonempty cell list `c0 :: cs`. -/
def maxCellsBy (f : TileCell → ℤ) (c0 : TileCell) (cs : List TileCell) : ℤ :=
  cs.foldl (fun m c => max m (f c)) (f c0)

/-- Embedding of `dmGameSystem::AcquireResources`
(res_tilegrid.cpp lines 14-75).  The external collaborators are passed as
inputs: `loadResult` is the outcome of `dmDDF::LoadMessage` on the buffer and
`getResult` the outcome of `dmResource::Get` on the message's tile set.  The
function returns the result code and the updated resource record. -/
def AcquireResources (loadResult : Option TileGridDDF)
    (getResult : Option TileSetResource) (tileGrid : TileGridResource) :
    ResourceResult × TileGridResource :=
  match loadResult with
  | none => (.RESULT_FORMAT_ERROR, tileGrid)
  | some ddf =>
    match getResult with
    | none => (.RESULT_RESOURCE_ERROR, tileGrid)
    | some ts =>
      let tg1 := { tileGrid with tileGrid := some ddf, tileSet := some ts }
      match ts.hullSet with
      | none => (.RESULT_OK, tg1)
      | some hull =>
        let bounds := ddf.layers.foldl scanLayer (int32Max, int32Max, int32Min, int32Min)
        let minX := bounds.1
        let minY := bounds.2.1
        let maxX := bounds.2.2.1
        let maxY := bounds.2.2.2
        let columnCount := maxX - minX
        let rowCount := maxY - minY
        let cellWidth := ts.tileSet.tileWidth
        let cellHeight := ts.tileSet.tileHeight
        let offX := (cellWidth : ℚ) * (1/2) * ((minX + maxX : ℤ) : ℚ)
        let offY := (cellHeight : ℚ) * (1/2) * ((minY + maxY : ℤ) : ℚ)
        let shapes := ddf.layers.map (fun _ =>
          GridShape.mk hull offX offY cellWidth cellHeight rowCount columnCount)
        (.RESULT_OK,
          { tg1 with
            gridShapes := shapes
            columnCount := columnCount
            rowCount := rowCount
            minCellX := minX
            minCellY := minY })

/-- A concrete two-cell, one-layer tile-grid message used as witness
input. -/
def tileGridFixture : TileGridDDF := ⟨0, [⟨[⟨0, 0⟩, ⟨2, 1⟩]⟩]⟩

/-- A concrete resolved tile set with 16x16 tiles and a hull set handle. -/
def tileSetFixture : TileSetResource := ⟨⟨16, 16⟩, some 5⟩

/-- A freshly allocated tile-grid resource record (`new TileGridResource()`
zero state). -/
def emptyTileGridResource : TileGridResource := ⟨none, none, [], 0, 0, 0, 0⟩

/-- Embedding of `dmGameSystem::ResTileGridRecreate`
(res_tilegrid.cpp lines 124-147): the reload body is commented out until
issue 678 is fixed, so the function ignores the buffer and returns
`RESULT_OK` leaving the resource untouched. -/
def ResTileGridRecreate (_buffer : List ℕ) (_bufferSize : ℕ)
    (resource : TileGridResource) : ResourceResult × TileGridResource :=
  (.RESULT_OK, resource)

end dmGameSystem

open dmParticle dmGameSystem

/-- Integer literals survive the round trip through `Int.toNat`; helper for
evaluating the spawner's floored accumulator. -/
theorem int_toNat_lit (n : ℕ) : (Int.toNat (no_index (OfNat.ofNat n)) : ℕ) = OfNat.ofNat n := rfl

/-- C1: for a once-mode prototype with rate=1, duration=1, particle life=1 and
dt=1, starting the instance and updating once yields exactly one live
particle; a second update yields zero live particles and the instance reports
sleeping. -/
theorem once_emitter_one_particle_then_sleeps :
    (UpdateRun onceProto (StartEmitter (initialEmitter 0)) [1]).particles.length = 1
    ∧ (UpdateRun onceProto (StartEmitter (initialEmitter 0)) [1, 1]).particles.length = 0
    ∧ IsSleeping [UpdateRun onceProto (StartEmitter (initialEmitter 0)) [1, 1]] = true := by
  have h0 : StartEmitter (initialEmitter 0) = ⟨.Prespawn, 0, 0, 0, []⟩ := rfl
  have h1 : Update onceProto ⟨.Prespawn, 0, 0, 0, []⟩ 1 = ⟨.Postspawn, 1, 0, 0, [⟨0, 1⟩]⟩ := by
    norm_num +decide [Update, spawnStep, onceProto, int_toNat_lit, Int.toNat_one]
  have h2 : Update onceProto ⟨.Postspawn, 1, 0, 0, [⟨0, 1⟩]⟩ 1 = ⟨.Sleeping, 2, 0, 0, []⟩ := by
    norm_num +decide [Update, spawnStep, onceProto]
  refine ⟨?_, ?_, ?_⟩ <;>
    · simp only [UpdateRun, List.foldl]
      rw [h0, h1]
      try rw [h2]
      rfl

/-- C2: the rate-accumulator spawner produces exactly 10 particles after one
update at rate=10, dt=1; exactly 1 particle after two updates at rate=1,
dt=1/2; and exactly 10 particles after four updates at rate=5/2, dt=1. -/
theorem spawner_rate_accumulator_counts :
    (UpdateRun rateMultiProto (StartEmitter (initialEmitter 0)) [1]).particles.length = 10
    ∧ (UpdateRun rateSubDTProto (StartEmitter (initialEmitter 0)) [1/2, 1/2]).particles.length = 1
    ∧ (UpdateRun rateTotalProto (StartEmitter (initialEmitter 0)) [1, 1, 1, 1]).particles.length = 10 := by
  have h0 : StartEmitter (initialEmitter 0) = ⟨.Prespawn, 0, 0, 0, []⟩ := rfl
  have hm : Update rateMultiProto ⟨.Prespawn, 0, 0, 0, []⟩ 1
      = ⟨.Postspawn, 1, 0, 0,
          [⟨9, 10⟩, ⟨9, 10⟩, ⟨9, 10⟩, ⟨9, 10⟩, ⟨9, 10⟩, ⟨9, 10⟩, ⟨9, 10⟩, ⟨9, 10⟩, ⟨9, 10⟩, ⟨9, 10⟩]⟩ := by
    norm_num +decide [Update, spawnStep, rateMultiProto, int_toNat_lit]
  have hs1 : Update rateSubDTProto ⟨.Prespawn, 0, 0, 0, []⟩ (1/2)
      = ⟨.Spawning, 1/2, 1/2, 0, []⟩ := by
    norm_num +decide [Update, spawnStep, rateSubDTProto, Int.toNat_zero]
  have hs2 : Update rateSubDTProto ⟨.Spawning, 1/2, 1/2, 0, []⟩ (1/2)
      = ⟨.Postspawn, 1, 0, 0, [⟨1/2, 1⟩]⟩ := by
    norm_num +decide [Update, spawnStep, rateSubDTProto, Int.toNat_one]
  have ht1 : Update rateTotalProto ⟨.Prespawn, 0, 0, 0, []⟩ 1
      = ⟨.Spawning, 1, 1/2, 0, [⟨9, 10⟩, ⟨9, 10⟩]⟩ := by
    norm_num +decide [Update, spawnStep, rateTotalProto, int_toNat_lit]
  have ht2 : Update rateTotalProto ⟨.Spawning, 1, 1/2, 0, [⟨9, 10⟩, ⟨9, 10⟩]⟩ 1
      = ⟨.Spawning, 2, 0, 0, [⟨8, 10⟩, ⟨8, 10⟩, ⟨9, 10⟩, ⟨9, 10⟩, ⟨9, 10⟩]⟩ := by
    norm_num +decide [Update, spawnStep, rateTotalProto, int_toNat_lit]
  have ht3 : Update rateTotalProto
      ⟨.Spawning, 2, 0, 0, [⟨8, 10⟩, ⟨8, 10⟩, ⟨9, 10⟩, ⟨9, 10⟩, ⟨9, 10⟩]⟩ 1
      = ⟨.Spawning, 3, 1/2, 0,
          [⟨7, 10⟩, ⟨7, 10⟩, ⟨8, 10⟩, ⟨8, 10⟩, ⟨8, 10⟩, ⟨9, 10⟩, ⟨9, 10⟩]⟩ := by
    norm_num +decide [Update, spawnStep, rateTotalProto, int_toNat_lit]
  have ht4 : Update rateTotalProto
      ⟨.Spawning, 3, 1/2, 0, [⟨7, 10⟩, ⟨7, 10⟩, ⟨8, 10⟩, ⟨8, 10⟩, ⟨8, 10⟩, ⟨9, 10⟩, ⟨9, 10⟩]⟩ 1
      = ⟨.Postspawn, 4, 0, 0,
          [⟨6, 10⟩, ⟨6, 10⟩, ⟨7, 10⟩, ⟨7, 10⟩, ⟨7, 10⟩, ⟨8, 10⟩, ⟨8, 10⟩, ⟨9, 10⟩, ⟨9, 10⟩, ⟨9, 10⟩]⟩ := by
    norm_num +decide [Update, spawnStep, rateTotalProto, int_toNat_lit]
  refine ⟨?_, ?_, ?_⟩
  · simp only [UpdateRun, List.foldl]
    rw [h0, hm]
    rfl
  · simp only [UpdateRun, List.foldl]
    rw [h0, hs1, hs2]
    rfl
  · simp only [UpdateRun, List.foldl]
    rw [h0, ht1, ht2, ht3, ht4]
    rfl

/-- C7: the cubic Hermite spline with knots (0,0,(1,0)), (1/4,0,(1,1)),
(1/2,1,(1,0)), (3/4,0,(1,-1)), (1,0,(1,0)) evaluates at the eight sample
points 1/8 .. 1 to a negative value, zero, a positive value, exactly one, a
positive value, zero, a negative value, and approximately zero. -/
theorem spline_evaluation_signs :
    EvaluateSpline splineKnots (1/8) < 0
    ∧ EvaluateSpline splineKnots (1/4) = 0
    ∧ 0 < EvaluateSpline splineKnots (3/8)
    ∧ EvaluateSpline splineKnots (1/2) = 1
    ∧ 0 < EvaluateSpline splineKnots (5/8)
    ∧ EvaluateSpline splineKnots (3/4) = 0
    ∧ EvaluateSpline splineKnots (7/8) < 0
    ∧ |EvaluateSpline splineKnots 1| ≤ 1/1000000 := by
  refine ⟨?_, ?_, ?_, ?_, ?_, ?_, ?_, ?_⟩ <;>
    norm_num [EvaluateSpline, evalSegments, splineKnots, hermiteSegment, hermite]

/-- C8 counterexample: for the modelled incomplete-fx emitter (no tile
source) a simulation tick still leaves one live particle, and render emits a
nonzero number of vertices for that emitter, refuting the claim that render
produces no vertices for it. -/
theorem incomplete_fx_renders_vertices_cex :
    (UpdateRun noTileProto (StartEmitter (initialEmitter 0)) [1/60]).particles.length = 1
    ∧ RenderVertexCount (UpdateRun noTileProto (StartEmitter (initialEmitter 0)) [1/60]) ≠ 0 := by
  have h0 : StartEmitter (initialEmitter 0) = ⟨.Prespawn, 0, 0, 0, []⟩ := rfl
  have h1 : Update noTileProto ⟨.Prespawn, 0, 0, 0, []⟩ (1/60)
      = ⟨.Spawning, 1/60, 0, 0, [⟨59/60, 1⟩]⟩ := by
    norm_num +decide [Update, spawnStep, noTileProto, Int.toNat_one]
  constructor <;>
    · simp only [UpdateRun, List.foldl]
      rw [h0, h1]
      simp [RenderVertexCount]

/-- C8 amended: when the animation-fetch callback fails or the prototype has
no tile source, the condition is recovered locally: particles are still
simulated, render emits six vertices per live particle for that emitter using
the default unit texture coordinates with a null texture. -/
theorem incomplete_fx_recovery :
    (UpdateRun noTileProto (StartEmitter (initialEmitter 0)) [1/60]).particles.length = 1
    ∧ RenderVertexCount (UpdateRun noTileProto (StartEmitter (initialEmitter 0)) [1/60]) = 6 * 1
    ∧ RenderTexture noTileProto true 7 = none
    ∧ RenderTexture failFetchProto false 7 = none
    ∧ RenderTexCoords noTileProto true gTexCoords = unitTexCoords
    ∧ RenderTexCoords failFetchProto false gTexCoords = unitTexCoords
    ∧ QuadTexCoords unitTexCoords 0
      = [(0, 65535), (0, 0), (65535, 65535), (65535, 65535), (0, 0), (65535, 0)] := by
  have h0 : StartEmitter (initialEmitter 0) = ⟨.Prespawn, 0, 0, 0, []⟩ := rfl
  have h1 : Update noTileProto ⟨.Prespawn, 0, 0, 0, []⟩ (1/60)
      = ⟨.Spawning, 1/60, 0, 0, [⟨59/60, 1⟩]⟩ := by
    norm_num +decide [Update, spawnStep, noTileProto, Int.toNat_one]
  refine ⟨?_, ?_, ?_, ?_, ?_, ?_, ?_⟩
  · simp only [UpdateRun, List.foldl]
    rw [h0, h1]
    rfl
  · simp only [UpdateRun, List.foldl]
    rw [h0, h1]
    rfl
  · rfl
  · rfl
  · rfl
  · rfl
  · norm_num [QuadTexCoords, quantU16, texCoordAt, unitTexCoords, int_toNat_lit, Int.toNat_zero]

/-- C9: for every input buffer and buffer size, ResTileGridRecreate returns
RESULT_OK and leaves the existing tile grid resource completely unchanged:
tile grid message, tile set reference and grid shapes keep their values. -/
theorem res_tilegrid_recreate_noop (buffer : List ℕ) (bufferSize : ℕ)
    (res : TileGridResource) :
    (ResTileGridRecreate buffer bufferSize res).1 = ResourceResult.RESULT_OK
    ∧ (ResTileGridRecreate buffer bufferSize res).2.tileGrid = res.tileGrid
    ∧ (ResTileGridRecreate buffer bufferSize res).2.tileSet = res.tileSet
    ∧ (ResTileGridRecreate buffer bufferSize res).2.gridShapes = res.gridShapes :=
  ⟨rfl, rfl, rfl, rfl⟩

/-- One tick never pushes the live count above `max_particle_count`: the
spawner's clamp bounds the spawned batch by the free capacity. -/
theorem spawnStep_fst_length_le (proto : EmitterPrototype) (e : Emitter) (dt : ℚ) (b : Bool) :
    (spawnStep proto e dt b).1.length ≤ proto.maxParticleCount - e.particles.length := by
  cases b <;> simp [spawnStep]

/-- `Update` preserves the pool invariant `live_count ≤ max_particle_count`. -/
theorem update_length_le (proto : EmitterPrototype) (e : Emitter) (dt : ℚ)
    (h : e.particles.length ≤ proto.maxParticleCount) :
    (Update proto e dt).particles.length ≤ proto.maxParticleCount := by
  have flen : ∀ (l : List Particle),
      ((l.map fun p => { p with timeLeft := p.timeLeft - dt }).filter
        (fun p => decide (0 ≤ p.timeLeft))).length ≤ l.length := by
    intro l
    exact le_trans (List.length_filter_le _ _) (by simp)
  cases hs : e.state
  case Sleeping => simpa [Update, hs] using h
  all_goals
    simp only [Update, hs]
    refine le_trans (flen _) ?_
    simp only [List.length_append]
    refine le_trans (Nat.add_le_add_left (spawnStep_fst_length_le proto e dt _) _) ?_
    omega

/-- Any update sequence preserves the pool invariant. -/
theorem updateRun_length_le (proto : EmitterPrototype) (e : Emitter) (dts : List ℚ)
    (h : e.particles.length ≤ proto.maxParticleCount) :
    (UpdateRun proto e dts).particles.length ≤ proto.maxParticleCount := by
  induction dts generalizing e with
  | nil => simpa [UpdateRun] using h
  | cons dt dts ih =>
    simp only [UpdateRun, List.foldl] at ih ⊢
    exact ih _ (update_length_le proto e dt h)

/-- C3: for every emitter and after every update sequence the number of live
particles never exceeds `max_particle_count`; concretely, with rate=10,
max=5, life=10 and dt=1 exactly 5 particles exist after four updates. -/
theorem live_count_le_max_particle_count (proto : EmitterPrototype) (e : Emitter)
    (dts : List ℚ) (h : e.particles.length ≤ proto.maxParticleCount) :
    (UpdateRun proto e dts).particles.length ≤ proto.maxParticleCount
    ∧ (UpdateRun maxCountProto (StartEmitter (initialEmitter 0)) [1, 1, 1, 1]).particles.length = 5 := by
  have h0 : StartEmitter (initialEmitter 0) = ⟨.Prespawn, 0, 0, 0, []⟩ := rfl
  have hm1 : Update maxCountProto ⟨.Prespawn, 0, 0, 0, []⟩ 1
      = ⟨.Spawning, 1, 0, 0, [⟨9, 10⟩, ⟨9, 10⟩, ⟨9, 10⟩, ⟨9, 10⟩, ⟨9, 10⟩]⟩ := by
    norm_num +decide [Update, spawnStep, maxCountProto, int_toNat_lit]
  have hm2 : Update maxCountProto ⟨.Spawning, 1, 0, 0, [⟨9, 10⟩, ⟨9, 10⟩, ⟨9, 10⟩, ⟨9, 10⟩, ⟨9, 10⟩]⟩ 1
      = ⟨.Spawning, 2, 0, 0, [⟨8, 10⟩, ⟨8, 10⟩, ⟨8, 10⟩, ⟨8, 10⟩, ⟨8, 10⟩]⟩ := by
    norm_num +decide [Update, spawnStep, maxCountProto, int_toNat_lit]
  have hm3 : Update maxCountProto ⟨.Spawning, 2, 0, 0, [⟨8, 10⟩, ⟨8, 10⟩, ⟨8, 10⟩, ⟨8, 10⟩, ⟨8, 10⟩]⟩ 1
      = ⟨.Spawning, 3, 0, 0, [⟨7, 10⟩, ⟨7, 10⟩, ⟨7, 10⟩, ⟨7, 10⟩, ⟨7, 10⟩]⟩ := by
    norm_num +decide [Update, spawnStep, maxCountProto, int_toNat_lit]
  have hm4 : Update maxCountProto ⟨.Spawning, 3, 0, 0, [⟨7, 10⟩, ⟨7, 10⟩, ⟨7, 10⟩, ⟨7, 10⟩, ⟨7, 10⟩]⟩ 1
      = ⟨.Postspawn, 4, 0, 0, [⟨6, 10⟩, ⟨6, 10⟩, ⟨6, 10⟩, ⟨6, 10⟩, ⟨6, 10⟩]⟩ := by
    norm_num +decide [Update, spawnStep, maxCountProto, int_toNat_lit]
  constructor
  · exact updateRun_length_le proto e dts h
  · simp only [UpdateRun, List.foldl]
    rw [h0, hm1, hm2, hm3, hm4]
    rfl

/-- Witness for C3 at a concrete emitter. -/
theorem live_count_le_max_particle_count_witness :
    (StartEmitter (initialEmitter 0)).particles.length ≤ onceProto.maxParticleCount
    ∧ ((UpdateRun onceProto (StartEmitter (initialEmitter 0)) [1]).particles.length
        ≤ onceProto.maxParticleCount
      ∧ (UpdateRun maxCountProto (StartEmitter (initialEmitter 0)) [1, 1, 1, 1]).particles.length = 5) :=
  ⟨by decide,
    live_count_le_max_particle_count onceProto (StartEmitter (initialEmitter 0)) [1] (by decide)⟩

/-- C4: for every live visible particle count and every caller-supplied
capacity, the renderer never writes past that capacity; whenever the capacity
suffices it writes exactly `6 * sizeof(Vertex) * count` bytes, six vertices
per particle; and `GetVertexBufferSize n = 6 * n * sizeof(Vertex)`. -/
theorem vertex_buffer_write_size (liveVisible capacity n : ℕ) :
    WriteVertexBuffer liveVisible capacity ≤ capacity
    ∧ (GetVertexBufferSize liveVisible ≤ capacity →
        WriteVertexBuffer liveVisible capacity = GetVertexBufferSize liveVisible)
    ∧ GetVertexBufferSize n = 6 * n * sizeofVertex := by
  simp only [WriteVertexBuffer, GetVertexBufferSize, sizeofVertex]
  refine ⟨?_, ?_, ?_⟩ <;> omega

/-- Witness for C4: a 150-byte buffer truncates two particles to one whole
particle (144 bytes written, within capacity), while one particle fits and is
reported in full. -/
theorem vertex_buffer_write_size_witness :
    (WriteVertexBuffer 2 150 ≤ 150
      ∧ (GetVertexBufferSize 2 ≤ 150 →
          WriteVertexBuffer 2 150 = GetVertexBufferSize 2)
      ∧ GetVertexBufferSize 3 = 6 * 3 * sizeofVertex)
    ∧ WriteVertexBuffer 2 150 = 144
    ∧ GetVertexBufferSize 1 ≤ 150
    ∧ (WriteVertexBuffer 1 150 ≤ 150
      ∧ (GetVertexBufferSize 1 ≤ 150 →
          WriteVertexBuffer 1 150 = GetVertexBufferSize 1)
      ∧ GetVertexBufferSize 2 = 6 * 2 * sizeofVertex)
    ∧ WriteVertexBuffer 1 150 = GetVertexBufferSize 1 :=
  ⟨vertex_buffer_write_size 2 150 3, by decide, by decide,
    vertex_buffer_write_size 1 150 2,
    (vertex_buffer_write_size 1 150 2).2.1 (by decide)⟩

/-- An emitter present before and after reload keeps its `timer` and `seed`
and its particle pool truncated to the new `max_particle_count`. -/
theorem reload_preserves (old : List Emitter) (np : List EmitterPrototype) (dts : List ℚ)
    (i : ℕ) (h1 : i < old.length) (h2 : i < np.length) :
    ∃ e p, old[i]? = some e ∧ np[i]? = some p ∧
      (ReloadInstance old np dts)[i]? =
        some { e with particles := e.particles.take p.maxParticleCount } := by
  induction np generalizing old i with
  | nil => simp at h2
  | cons p ps ih =>
    cases old with
    | nil => simp at h1
    | cons e es =>
      cases i with
      | zero => exact ⟨e, p, by simp, by simp, by simp [ReloadInstance]⟩
      | succ i =>
        simp only [List.getElem?_cons_succ, ReloadInstance]
        exact ih es i (by simpa using h1) (by simpa using h2)

/-- C5: after a prototype reload, `ReloadInstance` with replay keeps, for
every emitter present before and after the reload, its timer, its seed and
its live particles (the pool resized to the new `max_particle_count`, so the
particles are unchanged whenever they fit), while an emitter new in the
reloaded prototype is replayed over the elapsed play time and so carries its
own particles: in the modelled reload scenario the new second emitter holds
exactly one particle of its own. -/
theorem reload_instance_preserves_emitter_state (old : List Emitter)
    (np : List EmitterPrototype) (dts : List ℚ) (i : ℕ)
    (h1 : i < old.length) (h2 : i < np.length) :
    (∃ e p e', old[i]? = some e ∧ np[i]? = some p
      ∧ (ReloadInstance old np dts)[i]? = some e'
      ∧ e'.timer = e.timer ∧ e'.seed = e.seed
      ∧ e'.particles = e.particles.take p.maxParticleCount
      ∧ (e.particles.length ≤ p.maxParticleCount → e'.particles = e.particles))
    ∧ ((ReloadInstance [UpdateRun reloadProto (StartEmitter (initialEmitter 17)) [1/60]]
          [reloadProto, reloadProto] [1/60])[1]?).map (fun em => em.particles.length)
        = some 1 := by
  constructor
  · obtain ⟨e, p, he, hp, hr⟩ := reload_preserves old np dts i h1 h2
    exact ⟨e, p, _, he, hp, hr, rfl, rfl, rfl,
      fun hle => by simp [List.take_of_length_le hle]⟩
  · have hstep : Update reloadProto ⟨.Prespawn, 0, 0, 0, []⟩ (1/60)
        = ⟨.Spawning, 1/60, 0, 0, [⟨59/60, 1⟩]⟩ := by
      norm_num +decide [Update, spawnStep, reloadProto, Int.toNat_one]
    simp only [ReloadInstance, List.getElem?_cons_succ, List.getElem?_cons_zero]
    simp only [UpdateRun, List.foldl]
    rw [show StartEmitter (initialEmitter 0) = (⟨.Prespawn, 0, 0, 0, []⟩ : Emitter) from rfl,
      hstep]
    rfl

/-- Witness for C5 at one preserved emitter and the modelled reload
scenario. -/
theorem reload_instance_preserves_emitter_state_witness :
    0 < ([initialEmitter 3] : List Emitter).length
    ∧ 0 < ([reloadProto] : List EmitterPrototype).length
    ∧ ((∃ e p e', ([initialEmitter 3] : List Emitter)[0]? = some e
        ∧ ([reloadProto] : List EmitterPrototype)[0]? = some p
        ∧ (ReloadInstance [initialEmitter 3] [reloadProto] [])[0]? = some e'
        ∧ e'.timer = e.timer ∧ e'.seed = e.seed
        ∧ e'.particles = e.particles.take p.maxParticleCount
        ∧ (e.particles.length ≤ p.maxParticleCount → e'.particles = e.particles))
      ∧ ((ReloadInstance [UpdateRun reloadProto (StartEmitter (initialEmitter 17)) [1/60]]
            [reloadProto, reloadProto] [1/60])[1]?).map (fun em => em.particles.length)
          = some 1) :=
  ⟨by decide, by decide,
    reload_instance_preserves_emitter_state [initialEmitter 3] [reloadProto] [] 0
      (by decide) (by decide)⟩

/-- C6: flipbook playback over tiles 1..5 with dt=1/4 produces the per-tick
tile sequence [1,2,3,4,5] for once-forward over a 5-tick particle life and
[1,2,3,4,5,4,3,2] for ping-pong over 8 ticks (a triangle wave of length
2n-2), and vertex UVs are the `tex_coords[tile]` entries quantized by
multiplying by 65535 into 16-bit values. -/
theorem flipbook_tile_sequences (q : ℚ) (_hq0 : 0 ≤ q) (hq1 : q ≤ 1) :
    ((List.range 5).map (fun k => AnimTile .OnceForward 1 5 4 (5/4) (animAge k (1/4) (5/4)))
      = [1, 2, 3, 4, 5])
    ∧ ((List.range 8).map (fun k => AnimTile .PingPong 1 5 4 2 (animAge k (1/4) 2))
      = [1, 2, 3, 4, 5, 4, 3, 2])
    ∧ quantU16 q ≤ 65535
    ∧ QuadTexCoords gTexCoords 1
      = [(16383, 32767), (16383, 0), (32767, 32767), (32767, 32767), (16383, 0), (32767, 0)] := by
  have hr5 : List.range 5 = [0, 1, 2, 3, 4] := rfl
  have hr8 : List.range 8 = [0, 1, 2, 3, 4, 5, 6, 7] := rfl
  refine ⟨?_, ?_, ?_, ?_⟩
  · rw [hr5]
    norm_num [AnimTile, animAge, int_toNat_lit, Int.toNat_zero, Int.toNat_one]
  · rw [hr8]
    norm_num [AnimTile, animAge, int_toNat_lit, Int.toNat_zero, Int.toNat_one]
  · have hle : (q * 65535 : ℚ) ≤ 65535 := by
      have := mul_le_mul_of_nonneg_right hq1 (show (0:ℚ) ≤ 65535 by norm_num)
      simpa using this
    have hfl : Int.floor (q * 65535) ≤ 65535 := by
      calc Int.floor (q * 65535) ≤ Int.floor (65535 : ℚ) := Int.floor_mono hle
      _ = 65535 := by norm_num
    simp only [quantU16]
    omega
  · norm_num [QuadTexCoords, quantU16, texCoordAt, gTexCoords, int_toNat_lit, Int.toNat_zero]

/-- Witness for C6 at the texture coordinate 1/2. -/
theorem flipbook_tile_sequences_witness :
    ((0:ℚ) ≤ 1/2 ∧ (1/2:ℚ) ≤ 1)
    ∧ (((List.range 5).map (fun k => AnimTile .OnceForward 1 5 4 (5/4) (animAge k (1/4) (5/4)))
        = [1, 2, 3, 4, 5])
      ∧ ((List.range 8).map (fun k => AnimTile .PingPong 1 5 4 2 (animAge k (1/4) 2))
        = [1, 2, 3, 4, 5, 4, 3, 2])
      ∧ quantU16 (1/2) ≤ 65535
      ∧ QuadTexCoords gTexCoords 1
        = [(16383, 32767), (16383, 0), (32767, 32767), (32767, 32767), (16383, 0), (32767, 0)]) :=
  ⟨⟨by norm_num, by norm_num⟩, flipbook_tile_sequences (1/2) (by norm_num) (by norm_num)⟩

/-- The layer-by-layer boundary fold equals the fold over the concatenated
cell list. -/
theorem foldl_scanLayer_eq (layers : List TileLayer) (acc : ℤ × ℤ × ℤ × ℤ) :
    layers.foldl scanLayer acc = ((layers.map TileLayer.cell).flatten).foldl scanCell acc := by
  induction layers generalizing acc with
  | nil => rfl
  | cons l ls ih => simp [scanLayer, List.foldl_append, ih]

/-- The four components of the boundary fold are four independent folds. -/
theorem foldl_scanCell_split (cells : List TileCell) (a b c d : ℤ) :
    cells.foldl scanCell (a, b, c, d)
      = (cells.foldl (fun m x => min m x.x) a,
         cells.foldl (fun m x => min m x.y) b,
         cells.foldl (fun m x => max m (x.x + 1)) c,
         cells.foldl (fun m x => max m (x.y + 1)) d) := by
  induction cells generalizing a b c d with
  | nil => rfl
  | cons x xs ih => simp [scanCell, ih]

/-- Folding `max` over values shifted by one shifts the fold by one. -/
theorem foldl_max_shift (f : TileCell → ℤ) (cells : List TileCell) (a : ℤ) :
    cells.foldl (fun m c => max m (f c + 1)) (a + 1)
      = cells.foldl (fun m c => max m (f c)) a + 1 := by
  induction cells generalizing a with
  | nil => rfl
  | cons x xs ih =>
    simp only [List.foldl_cons]
    rw [max_add_add_right]
    exact ih (a ⊔ f x)

/-- With at least one cell and int32-ranged coordinates, the boundary scan
computes the per-axis minimum and one past the per-axis maximum. -/
theorem acquire_bounds_tuple (ddf : TileGridDDF) (c0 : TileCell) (cs : List TileCell)
    (hcells : allCells ddf = c0 :: cs)
    (hx1 : -2147483648 ≤ c0.x) (hx2 : c0.x ≤ 2147483646)
    (hy1 : -2147483648 ≤ c0.y) (hy2 : c0.y ≤ 2147483646) :
    ddf.layers.foldl scanLayer (int32Max, int32Max, int32Min, int32Min)
      = (minCellsBy (fun c => c.x) c0 cs, minCellsBy (fun c => c.y) c0 cs,
         1 + maxCellsBy (fun c => c.x) c0 cs, 1 + maxCellsBy (fun c => c.y) c0 cs) := by
  have hflat : (ddf.layers.map TileLayer.cell).flatten = c0 :: cs := hcells
  rw [foldl_scanLayer_eq, hflat, foldl_scanCell_split]
  simp only [List.foldl_cons, int32Max, int32Min]
  rw [min_eq_right (by omega), min_eq_right (by omega),
    max_eq_right (by omega), max_eq_right (by omega),
    foldl_max_shift (fun c => c.x) cs c0.x, foldl_max_shift (fun c => c.y) cs c0.y]
  simp only [minCellsBy, maxCellsBy, Prod.mk.injEq]
  refine ⟨trivial, trivial, by omega, by omega⟩

/-- C10: for every tile-grid message that deserializes, whose tile set
resolves with a non-null hull set, and which contains at least one cell
across its layers (with int32 coordinates), AcquireResources returns OK,
sets the column count to (1 + the maximum cell x) minus the minimum cell x,
the row count to (1 + the maximum cell y) minus the minimum cell y, centers
the offset at half the tile dimensions times (min + max), and creates
exactly one grid shape per layer. -/
theorem acquire_resources_grid_bounds (ddf : TileGridDDF) (ts : TileSetResource)
    (tg : TileGridResource) (hull : ℕ) (c0 : TileCell) (cs : List TileCell)
    (hhull : ts.hullSet = some hull)
    (hcells : allCells ddf = c0 :: cs)
    (hx1 : -2147483648 ≤ c0.x) (hx2 : c0.x ≤ 2147483646)
    (hy1 : -2147483648 ≤ c0.y) (hy2 : c0.y ≤ 2147483646) :
    (AcquireResources (some ddf) (some ts) tg).1 = ResourceResult.RESULT_OK
    ∧ (AcquireResources (some ddf) (some ts) tg).2.columnCount
        = (1 + maxCellsBy (fun c => c.x) c0 cs) - minCellsBy (fun c => c.x) c0 cs
    ∧ (AcquireResources (some ddf) (some ts) tg).2.rowCount
        = (1 + maxCellsBy (fun c => c.y) c0 cs) - minCellsBy (fun c => c.y) c0 cs
    ∧ (AcquireResources (some ddf) (some ts) tg).2.gridShapes
        = ddf.layers.map (fun _ => GridShape.mk hull
            ((ts.tileSet.tileWidth : ℚ) * (1/2)
              * ((minCellsBy (fun c => c.x) c0 cs + (1 + maxCellsBy (fun c => c.x) c0 cs) : ℤ) : ℚ))
            ((ts.tileSet.tileHeight : ℚ) * (1/2)
              * ((minCellsBy (fun c => c.y) c0 cs + (1 + maxCellsBy (fun c => c.y) c0 cs) : ℤ) : ℚ))
            ts.tileSet.tileWidth ts.tileSet.tileHeight
            ((1 + maxCellsBy (fun c => c.y) c0 cs) - minCellsBy (fun c => c.y) c0 cs)
            ((1 + maxCellsBy (fun c => c.x) c0 cs) - minCellsBy (fun c => c.x) c0 cs))
    ∧ (AcquireResources (some ddf) (some ts) tg).2.gridShapes.length = ddf.layers.length := by
  have hb := acquire_bounds_tuple ddf c0 cs hcells hx1 hx2 hy1 hy2
  simp only [AcquireResources, hhull, hb]
  refine ⟨trivial, trivial, trivial, trivial, by simp⟩

/-- Witness for C10 on the two-cell fixture. -/
theorem acquire_resources_grid_bounds_witness :
    (tileSetFixture.hullSet = some 5
      ∧ allCells tileGridFixture = ⟨0, 0⟩ :: [⟨2, 1⟩]
      ∧ -2147483648 ≤ (TileCell.mk 0 0).x ∧ (TileCell.mk 0 0).x ≤ 2147483646
      ∧ -2147483648 ≤ (TileCell.mk 0 0).y ∧ (TileCell.mk 0 0).y ≤ 2147483646)
    ∧ ((AcquireResources (some tileGridFixture) (some tileSetFixture) emptyTileGridResource).1
        = ResourceResult.RESULT_OK
      ∧ (AcquireResources (some tileGridFixture) (some tileSetFixture) emptyTileGridResource).2.columnCount
          = (1 + maxCellsBy (fun c => c.x) ⟨0, 0⟩ [⟨2, 1⟩]) - minCellsBy (fun c => c.x) ⟨0, 0⟩ [⟨2, 1⟩]
      ∧ (AcquireResources (some tileGridFixture) (some tileSetFixture) emptyTileGridResource).2.rowCount
          = (1 + maxCellsBy (fun c => c.y) ⟨0, 0⟩ [⟨2, 1⟩]) - minCellsBy (fun c => c.y) ⟨0, 0⟩ [⟨2, 1⟩]
      ∧ (AcquireResources (some tileGridFixture) (some tileSetFixture) emptyTileGridResource).2.gridShapes
          = tileGridFixture.layers.map (fun _ => GridShape.mk 5
              ((tileSetFixture.tileSet.tileWidth : ℚ) * (1/2)
                * ((minCellsBy (fun c => c.x) ⟨0, 0⟩ [⟨2, 1⟩] + (1 + maxCellsBy (fun c => c.x) ⟨0, 0⟩ [⟨2, 1⟩]) : ℤ) : ℚ))
              ((tileSetFixture.tileSet.tileHeight : ℚ) * (1/2)
                * ((minCellsBy (fun c => c.y) ⟨0, 0⟩ [⟨2, 1⟩] + (1 + maxCellsBy (fun c => c.y) ⟨0, 0⟩ [⟨2, 1⟩]) : ℤ) : ℚ))
              tileSetFixture.tileSet.tileWidth tileSetFixture.tileSet.tileHeight
              ((1 + maxCellsBy (fun c => c.y) ⟨0, 0⟩ [⟨2, 1⟩]) - minCellsBy (fun c => c.y) ⟨0, 0⟩ [⟨2, 1⟩])
              ((1 + maxCellsBy (fun c => c.x) ⟨0, 0⟩ [⟨2, 1⟩]) - minCellsBy (fun c => c.x) ⟨0, 0⟩ [⟨2, 1⟩]))
      ∧ (AcquireResources (some tileGridFixture) (some tileSetFixture) emptyTileGridResource).2.gridShapes.length
          = tileGridFixture.layers.length) :=
  ⟨⟨rfl, rfl, by decide, by decide, by decide, by decide⟩,
    acquire_resources_grid_bounds tileGridFixture tileSetFixture emptyTileGridResource 5
      ⟨0, 0⟩ [⟨2, 1⟩] rfl rfl (by decide) (by decide) (by decide) (by decide)⟩
